import Mathlib

/-!
Shallow embedding of the voice-session websocket handler of
`src/fastapi_app.py` (the FastAPI server for the ESP32 voice assistant),
together with proofs about the session state machine, the AI pipeline,
the chunked reply sender and the LED status relay.

Modelling conventions:
* Bytes are `Nat`; audio buffers are `List Nat`.  Byte values never
  influence control flow in the source, only buffer emptiness and length.
* The external collaborators (Baidu ASR/TTS, the LLM endpoint, websocket
  transport success) are modelled by an `Oracle` of pure functions: the
  handler's behaviour is a function of their return values at each call
  site, exactly as in the source.
* One iteration of the `while True` receive loop of `websocket_endpoint`
  (lines 139-245) is the step function `handleMessage`; the per-connection
  closure state (`client_state`) is `ClientState`, and the process-wide
  state (`led_controller_connection`, the Redis history of this client id)
  is `ServerState`.
* Observable actions (sends to the client, forwards to the LED observer,
  prints, pipeline-stage calls, event-loop yields) are recorded in order
  in an `Effect` trace.
-/

namespace ESP32Voice

/-- A byte of audio. -/
abbrev Byte := Nat

/-- Speaker tag of one conversation-history entry. -/
inductive Speaker where
  | human
  | assistant
deriving DecidableEq, Repr

/-- One entry of the Redis-backed conversation history
(one message of `RedisChatMessageHistory`). -/
structure MemEntry where
  speaker : Speaker
  text : String
deriving DecidableEq, Repr

/-- Outcome of `json.loads(text)` followed by `data.get("event")`
(lines 157-158) on a text frame that is not the literal `"1"`/`"0"`:
either an object whose `event` field is `evt` (`none` when the field is
absent), or an exception (malformed JSON, or a payload on which `.get`
raises), which in the source propagates out of the receive loop. -/
inductive Parsed where
  | ok (evt : Option String)
  | raisesErr
deriving DecidableEq, Repr

/-- A text frame of the websocket protocol: the two literal status
markers, or a JSON control payload. -/
inductive TextFrame where
  | lit1
  | lit0
  | jsonPayload (p : Parsed)
deriving DecidableEq, Repr

/-- One inbound websocket message (lines 140-243). -/
inductive Message where
  | text (t : TextFrame)
  | binary (bytes : List Byte)
deriving DecidableEq, Repr

/-- Observable actions of one loop iteration, in execution order. -/
inductive Effect where
  | sentBytes (chunk : List Byte)
  | sentText (s : String)
  | forwarded (s : String)
  | yielded
  | slept
  | logged (s : String)
  | asrCalled
  | llmCalled
  | memAppended
  | ttsCalled
deriving DecidableEq, Repr

/-- The per-connection `client_state` dict of `websocket_endpoint`
(lines 133-136). -/
structure ClientState where
  is_recording : Bool
  audio_buffer : List Byte
deriving DecidableEq, Repr

/-- Process-wide mutable state visible to one session: the global
`led_controller_connection` slot (line 88, an observer connection id
when present) and the Redis conversation history stored under this
session's client id. -/
structure ServerState where
  led_controller_connection : Option Nat
  redis : List MemEntry
deriving DecidableEq, Repr

/-- Return values of the external collaborators at each call site.
`asr` is `transcribe_audio_stream` (empty string on ASR failure,
lines 28-36); `llm` is the dialogue model's reply given the loaded
history and the question; `tts` is `synthesize_speech_stream` (empty
bytes on TTS failure, lines 38-53); `sendOk i` is whether the `i`-th
`websocket.send_bytes` of the current reply succeeds; `markerOk`
whether the final `send_text` of the completion marker succeeds;
`forwardOk` whether `led_controller_connection.send_text` succeeds. -/
structure Oracle where
  asr : List Byte → String
  llm : List MemEntry → String → String
  tts : String → List Byte
  sendOk : Nat → Bool
  markerOk : Bool
  forwardOk : Bool

/-- `CHUNK_SIZE = 1024` (line 201). -/
def CHUNK_SIZE : Nat := 1024

/-- `BURST_SIZE = 8` (line 202). -/
def BURST_SIZE : Nat := 8

/-- The chunking of the reply audio performed by
`for i in range(0, len(audio), C): chunk = audio[i:i+C]` (lines 205-206),
for any chunk size `C ≥ 1` (the source fixes `C = CHUNK_SIZE`).
For `C ≥ 1`, `(x :: xs).drop C = xs.drop (C - 1)`, so each step takes
the next `C` bytes and recurses on the rest. -/
def splitChunks (C : Nat) : List Byte → List (List Byte)
  | [] => []
  | x :: xs => ((x :: xs).take C) :: splitChunks C (xs.drop (C - 1))
termination_by l => l.length
decreasing_by
  simp only [List.length_drop, List.length_cons]
  omega

/-- The chunk-send loop (lines 203-220): `idx` is the index of the next
chunk within this reply, `burst_count` mirrors the Python variable.
A successful `send_bytes` emits the chunk; after each `BURST_SIZE`-th
send the counter resets and the loop yields (`await asyncio.sleep(0.001)`,
line 216).  A failing send raises: the handler logs the disconnect and
`break`s (lines 218-220), so no later chunk of this reply is sent.
Returns the effect trace and whether the loop was broken by a failure. -/
def sendLoop (o : Oracle) : List (List Byte) → Nat → Nat → List Effect × Bool
  | [], _, _ => ([], false)
  | c :: rest, idx, burst_count =>
    if o.sendOk idx then
      if burst_count + 1 ≥ BURST_SIZE then
        let r := sendLoop o rest (idx + 1) 0
        (Effect.sentBytes c :: Effect.yielded :: r.1, r.2)
      else
        let r := sendLoop o rest (idx + 1) (burst_count + 1)
        (Effect.sentBytes c :: r.1, r.2)
    else
      ([Effect.logged "send failed: client disconnected during audio send"], true)

/-- The reply-delivery phase (lines 197-230): the 0.1 s delay, the
burst-and-yield chunk loop over `splitChunks CHUNK_SIZE audio`, then the
best-effort completion marker `{"event": "response_finished"}`
(modelled as the marker string `response_finished`): its send is
attempted even after a mid-stream break, and a failure of the marker
send itself is swallowed (lines 224-230). -/
def streamReply (o : Oracle) (audio : List Byte) : List Effect :=
  let r := sendLoop o (splitChunks CHUNK_SIZE audio) 0 0
  Effect.slept :: r.1 ++ (if o.markerOk then [Effect.sentText "response_finished"] else [])

/-- Modelled from the spec: the memory behaviour of
`get_ai_response_with_redis` (lines 97-122).  The actual load/append is
performed inside `LLMChain.invoke` with a Redis-backed
`ConversationBufferMemory` — library code not under `src/`; the spec
(§1 collaborator interfaces, §3 ConversationHistory, and the comment on
line 119 of the source) states that `invoke` loads the history, runs the
model, and then stores the new question/answer pair back: exactly one
human entry and one assistant entry, appended together. -/
def chainInvoke (o : Oracle) (redis : List MemEntry) (question : String) :
    String × List MemEntry :=
  let answer := o.llm redis question
  (answer, redis ++ [⟨Speaker.human, question⟩, ⟨Speaker.assistant, answer⟩])

/-- The inline AI pipeline run on the accumulated buffer after
`recording_ended` with a non-empty buffer (lines 179-232):
ASR (abort on empty text, line 181-183), then the LLM call with its
Redis memory update, then TTS (abort on empty bytes, line 192-194),
then the chunked reply stream.  Returns the updated Redis history and
the effect trace. -/
def runPipeline (o : Oracle) (redis : List MemEntry) (buffer : List Byte) :
    List MemEntry × List Effect :=
  let user_text := o.asr buffer
  if user_text = "" then
    (redis, [Effect.asrCalled, Effect.logged "ASR failed, turn aborted"])
  else
    let r := chainInvoke o redis user_text
    let audio := o.tts r.1
    if audio = [] then
      (r.2, [Effect.asrCalled, Effect.llmCalled, Effect.memAppended, Effect.ttsCalled,
             Effect.logged "TTS failed, turn aborted"])
    else
      (r.2, [Effect.asrCalled, Effect.llmCalled, Effect.memAppended, Effect.ttsCalled] ++
            streamReply o audio)

/-- Result of one iteration of the receive loop.  `fatal = true` means an
exception escaped the iteration's own handlers: the outer
`except`/`finally` of `websocket_endpoint` (lines 247-256) then ends the
loop and closes the websocket, so the connection does not stay open. -/
structure StepResult where
  client : ClientState
  server : ServerState
  effects : List Effect
  fatal : Bool
deriving DecidableEq, Repr

/-- Handling of the literal `"1"`/`"0"` status markers (lines 147-155):
forward verbatim to the LED controller when one is registered; on a
forward failure clear the global slot; when no controller is registered,
do nothing.  Session state is untouched. -/
def forwardSignal (o : Oracle) (srv : ServerState) (cl : ClientState) (s : String) :
    StepResult :=
  match srv.led_controller_connection with
  | some _ =>
    if o.forwardOk then
      ⟨cl, srv, [Effect.forwarded s, Effect.logged "forwarded speaking state"], false⟩
    else
      ⟨cl, { srv with led_controller_connection := none },
        [Effect.logged "forward to LED controller failed"], false⟩
  | none => ⟨cl, srv, [], false⟩

/-- The `event` dispatch of the control-payload branch (lines 158-237),
an `if`/`elif` chain on the value of `data.get("event")` with no `else`:
an unrecognized event name falls through with no action.  Note that
`recording_ended` sets `is_recording = False` before the emptiness check
and never clears the buffer (lines 170-174), and that `recording_started`
and `recording_cancelled` both clear it (lines 165-166, 236-237). -/
def handleEvent (o : Oracle) (srv : ServerState) (cl : ClientState)
    (event : Option String) : StepResult :=
  if event = some "wake_word_detected" then
    ⟨cl, srv, [Effect.logged "wake word detected"], false⟩
  else if event = some "recording_started" then
    ⟨⟨true, []⟩, srv, [Effect.logged "recording started"], false⟩
  else if event = some "recording_ended" then
    let cl' : ClientState := ⟨false, cl.audio_buffer⟩
    if cl.audio_buffer = [] then
      ⟨cl', srv, [Effect.logged "warning: audio buffer empty, not processing"], false⟩
    else
      let r := runPipeline o srv.redis cl.audio_buffer
      ⟨cl', { srv with redis := r.1 }, r.2, false⟩
  else if event = some "recording_cancelled" then
    ⟨⟨false, []⟩, srv, [Effect.logged "recording cancelled"], false⟩
  else
    ⟨cl, srv, [], false⟩

/-- Handling of one text frame (lines 143-237): the two literal status
markers short-circuit before JSON parsing; `json.loads` on a malformed
payload raises, which no handler inside the loop catches (fatal). -/
def handleText (o : Oracle) (srv : ServerState) (cl : ClientState) :
    TextFrame → StepResult
  | .lit1 => forwardSignal o srv cl "1"
  | .lit0 => forwardSignal o srv cl "0"
  | .jsonPayload .raisesErr => ⟨cl, srv, [], true⟩
  | .jsonPayload (.ok evt) => handleEvent o srv cl evt

/-- One iteration of the receive loop of `websocket_endpoint`
(lines 139-245): text frames are dispatched as above; a binary frame is
appended to the audio buffer exactly when `is_recording` is set
(lines 240-243), otherwise dropped. -/
def handleMessage (o : Oracle) (srv : ServerState) (cl : ClientState) :
    Message → StepResult
  | .text t => handleText o srv cl t
  | .binary bytes =>
    if cl.is_recording then
      ⟨⟨cl.is_recording, cl.audio_buffer ++ bytes⟩, srv, [], false⟩
    else
      ⟨cl, srv, [], false⟩

/-- `led_websocket_endpoint` registration (line 269): the global slot is
overwritten with the new connection unconditionally. -/
def observerRegister (srv : ServerState) (w : Nat) : ServerState :=
  { srv with led_controller_connection := some w }

/-- `led_websocket_endpoint` teardown (`finally`, line 282): when the
handler of observer connection `w` terminates, the global slot is set to
`None` unconditionally — the source never compares the slot's current
occupant with the terminating handler's own connection `w`. -/
def observerHandlerFinally (srv : ServerState) (w : Nat) : ServerState :=
  { srv with led_controller_connection := none }

/-- Effects that deliver something to the primary (ESP32) client. -/
def isClientSend : Effect → Bool
  | .sentBytes _ => true
  | .sentText _ => true
  | _ => false

/-- Effects that invoke a stage of the AI pipeline. -/
def isPipelineCall : Effect → Bool
  | .asrCalled => true
  | .llmCalled => true
  | .ttsCalled => true
  | _ => false

/-- The audio chunks delivered to the client, in send order. -/
def sentChunks (es : List Effect) : List (List Byte) :=
  es.filterMap fun e =>
    match e with
    | .sentBytes c => some c
    | _ => none

/-- Whether an effect is an event-loop yield (`await asyncio.sleep(0.001)`). -/
def isYield : Effect → Bool
  | .yielded => true
  | _ => false

/-- Number of event-loop yields in a trace. -/
def yieldCount (es : List Effect) : Nat :=
  (es.filter isYield).length

/-- The `recording_ended` control message. -/
def recordingEndedMsg : Message := .text (.jsonPayload (.ok (some "recording_ended")))

/-- Oracle in which every collaborator call and every transport send
succeeds. -/
def oAllOk : Oracle :=
  ⟨fun _ => "hello", fun _ _ => "reply", fun _ => [3, 4], fun _ => true, true, true⟩

/-- Oracle in which the transcriber returns the empty string (ASR failure)
and everything else succeeds. -/
def oAsrFail : Oracle :=
  ⟨fun _ => "", fun _ _ => "reply", fun _ => [3, 4], fun _ => true, true, true⟩

/-- Oracle in which the synthesizer returns empty bytes (TTS failure)
and everything else succeeds. -/
def oTtsFail : Oracle :=
  ⟨fun _ => "hello", fun _ _ => "reply", fun _ => [], fun _ => true, true, true⟩

/-- Oracle in which forwarding to the LED controller fails and everything
else succeeds. -/
def oFwdFail : Oracle :=
  ⟨fun _ => "hello", fun _ _ => "reply", fun _ => [3, 4], fun _ => true, true, false⟩

/-- Oracle in which only the first `send_bytes` of a reply succeeds and
the second raises. -/
def oSendFailAfterFirst : Oracle :=
  ⟨fun _ => "hello", fun _ _ => "reply", fun _ => [3, 4], fun i => i == 0, true, true⟩

/-! ### Helper lemmas about the chunking and the send loop -/

/-- For a positive chunk size `C`, the number of chunks of `splitChunks`
is `⌈l.length / C⌉ = (l.length + C - 1) / C`. -/
theorem splitChunks_length (C : Nat) (hC : 0 < C) :
    ∀ l : List Byte, (splitChunks C l).length = (l.length + C - 1) / C
  | [] => by
    simp [splitChunks, Nat.div_eq_of_lt (by omega : C - 1 < C)]
  | x :: xs => by
    rw [splitChunks]
    simp only [List.length_cons]
    rw [splitChunks_length C hC (xs.drop (C - 1))]
    simp only [List.length_drop]
    rcases Nat.lt_or_ge xs.length (C - 1) with h | h
    · rw [(by omega : xs.length - (C - 1) = 0)]
      rw [Nat.div_eq_of_lt (by omega : 0 + C - 1 < C)]
      rw [(by omega : xs.length + 1 + C - 1 = xs.length + C)]
      rw [Nat.add_div_right _ hC, Nat.div_eq_of_lt (by omega : xs.length < C)]
    · rw [(by omega : xs.length - (C - 1) + C - 1 = xs.length)]
      rw [(by omega : xs.length + 1 + C - 1 = xs.length + C)]
      rw [Nat.add_div_right _ hC]
termination_by l => l.length
decreasing_by
  simp only [List.length_drop, List.length_cons]
  omega

/-- For a positive chunk size, concatenating the chunks of `splitChunks`
in order reproduces the original list. -/
theorem splitChunks_flatten (C : Nat) (hC : 0 < C) :
    ∀ l : List Byte, (splitChunks C l).flatten = l
  | [] => by rw [splitChunks]; rfl
  | x :: xs => by
    obtain ⟨D, rfl⟩ : ∃ D, C = D + 1 := ⟨C - 1, by omega⟩
    rw [splitChunks]
    rw [List.flatten_cons]
    rw [splitChunks_flatten (D + 1) hC (xs.drop (D + 1 - 1))]
    simp only [Nat.add_sub_cancel]
    rw [List.take_succ_cons, List.cons_append, List.take_append_drop]
termination_by l => l.length
decreasing_by
  simp only [List.length_drop, List.length_cons]
  omega

/-- When every `send_bytes` succeeds, the send loop delivers exactly its
chunk list, in order, and is not broken. -/
theorem sendLoop_success (o : Oracle) (hok : ∀ i, o.sendOk i = true) :
    ∀ (cs : List (List Byte)) (idx b : Nat),
      sentChunks (sendLoop o cs idx b).1 = cs ∧ (sendLoop o cs idx b).2 = false
  | [], _, _ => by simp [sendLoop, sentChunks]
  | c :: rest, idx, b => by
    have ih0 := sendLoop_success o hok rest (idx + 1) 0
    have ih1 := sendLoop_success o hok rest (idx + 1) (b + 1)
    simp only [sendLoop, hok idx, if_true]
    by_cases hb : b + 1 ≥ BURST_SIZE
    · simp only [if_pos hb]
      simp [sentChunks] at ih0 ⊢
      exact ih0
    · simp only [if_neg hb]
      simp [sentChunks] at ih1 ⊢
      exact ih1

/-- When every `send_bytes` succeeds and the loop starts with
`burst_count = b < BURST_SIZE`, the loop yields once after every
`BURST_SIZE`-th send: `(b + number of chunks) / BURST_SIZE` times. -/
theorem sendLoop_success_yields (o : Oracle) (hok : ∀ i, o.sendOk i = true) :
    ∀ (cs : List (List Byte)) (idx b : Nat), b < BURST_SIZE →
      yieldCount (sendLoop o cs idx b).1 = (b + cs.length) / BURST_SIZE
  | [], idx, b => by
    intro hb
    simp only [sendLoop, yieldCount, List.filter_nil, List.length_nil, Nat.add_zero]
    exact (Nat.div_eq_of_lt hb).symm
  | c :: rest, idx, b => by
    intro hb
    have h8 : BURST_SIZE = 8 := rfl
    simp only [sendLoop, hok idx, if_true]
    by_cases hcase : b + 1 ≥ BURST_SIZE
    · have hb7 : b = 7 := by omega
      subst hb7
      simp only [if_pos hcase]
      have ih := sendLoop_success_yields o hok rest (idx + 1) 0 (by omega)
      simp only [yieldCount] at ih ⊢
      simp only [List.filter_cons, isYield, Bool.false_eq_true, if_false, if_true,
        List.length_cons, Nat.zero_add] at ih ⊢
      rw [ih, (by omega : 7 + (rest.length + 1) = rest.length + BURST_SIZE),
        Nat.add_div_right _ (by omega)]
    · simp only [if_neg hcase]
      have ih := sendLoop_success_yields o hok rest (idx + 1) (b + 1) (by omega)
      simp only [yieldCount] at ih ⊢
      simp only [List.filter_cons, isYield, Bool.false_eq_true, if_false,
        List.length_cons] at ih ⊢
      rw [ih, (by omega : b + (rest.length + 1) = b + 1 + rest.length)]

/-- When the `k`-th `send_bytes` of the loop raises (all earlier ones
succeeding), exactly the first `k` chunks are delivered, the loop is
broken, and the disconnect is logged. -/
theorem sendLoop_failure (o : Oracle) :
    ∀ (cs : List (List Byte)) (idx b k : Nat),
      (∀ i, i < k → o.sendOk (idx + i) = true) →
      o.sendOk (idx + k) = false →
      k < cs.length →
      sentChunks (sendLoop o cs idx b).1 = cs.take k ∧
      (sendLoop o cs idx b).2 = true ∧
      Effect.logged "send failed: client disconnected during audio send"
        ∈ (sendLoop o cs idx b).1
  | [], idx, b, k => by intro _ _ h; simp at h
  | c :: rest, idx, b, 0 => by
    intro hok hfail hk
    simp only [Nat.add_zero] at hfail
    simp [sendLoop, hfail, sentChunks]
  | c :: rest, idx, b, (k + 1) => by
    intro hok hfail hk
    have h0 : o.sendOk idx = true := by
      have := hok 0 (by omega)
      simpa using this
    have ihok : ∀ i, i < k → o.sendOk (idx + 1 + i) = true := by
      intro i hi
      have := hok (i + 1) (by omega)
      rw [(by omega : idx + 1 + i = idx + (i + 1))]
      exact this
    have ihfail : o.sendOk (idx + 1 + k) = false := by
      rw [(by omega : idx + 1 + k = idx + (k + 1))]
      exact hfail
    have ihk : k < rest.length := by simpa using hk
    simp only [sendLoop, h0, if_true]
    by_cases hcase : b + 1 ≥ BURST_SIZE
    · simp only [if_pos hcase]
      have ih := sendLoop_failure o rest (idx + 1) 0 k ihok ihfail ihk
      simp [sentChunks] at ih ⊢
      exact ih
    · simp only [if_neg hcase]
      have ih := sendLoop_failure o rest (idx + 1) (b + 1) k ihok ihfail ihk
      simp [sentChunks] at ih ⊢
      exact ih

/-- Whenever the transcriber returns non-empty text, the pipeline's memory
state after the run is the old history plus exactly the human/assistant
pair of this turn, whether or not the synthesis stage later fails. -/
theorem runPipeline_redis (o : Oracle) (redis : List MemEntry) (buffer : List Byte)
    (hasr : o.asr buffer ≠ "") :
    (runPipeline o redis buffer).1 =
      redis ++ [⟨Speaker.human, o.asr buffer⟩,
                ⟨Speaker.assistant, o.llm redis (o.asr buffer)⟩] := by
  simp only [runPipeline, chainInvoke, if_neg hasr]
  split <;> rfl

/-- Every pipeline run starts with the transcriber call, whatever the
collaborators return. -/
theorem runPipeline_calls_asr (o : Oracle) (redis : List MemEntry) (buffer : List Byte) :
    Effect.asrCalled ∈ (runPipeline o redis buffer).2 := by
  simp only [runPipeline, chainInvoke]
  split
  · simp
  · split <;> simp

/-! ### Claim theorems -/

/-- C1: a `recording_ended` event arriving while the accumulated audio
buffer is empty transitions the session directly back to Idle
(`is_recording = false`) and the pipeline (transcription, dialogue,
synthesis) is never invoked for that turn: the step only logs a warning,
leaves the server state (memory, observer slot) untouched and is not
fatal. -/
theorem recording_ended_empty_buffer_idles_without_pipeline
    (o : Oracle) (srv : ServerState) (cl : ClientState)
    (h : cl.audio_buffer = []) :
    handleMessage o srv cl recordingEndedMsg =
      ⟨⟨false, []⟩, srv,
       [Effect.logged "warning: audio buffer empty, not processing"], false⟩ := by
  simp [handleMessage, handleText, handleEvent, recordingEndedMsg, h]

/-- Witness for C1 at a concrete input. -/
theorem recording_ended_empty_buffer_idles_without_pipeline_witness :
    handleMessage oAllOk ⟨none, []⟩ ⟨true, []⟩ recordingEndedMsg =
      ⟨⟨false, []⟩, ⟨none, []⟩,
       [Effect.logged "warning: audio buffer empty, not processing"], false⟩ :=
  recording_ended_empty_buffer_idles_without_pipeline oAllOk ⟨none, []⟩ ⟨true, []⟩ rfl

/-- C2: a binary audio frame is appended to the session's audio buffer if
and only if the session is recording (`is_recording = true`, the spec's
`Recording` state); in any state with `is_recording = false` (the spec's
`Idle`, and `Processing` — during which the sequential receive loop is
not reading, so queued frames are handled with `is_recording` already
reset) the buffer, the rest of the session state and the server state
are unchanged and nothing is sent or invoked. -/
theorem binary_frame_appended_iff_recording
    (o : Oracle) (srv : ServerState) (cl : ClientState) (bytes : List Byte) :
    handleMessage o srv cl (.binary bytes) =
      ⟨⟨cl.is_recording,
        if cl.is_recording then cl.audio_buffer ++ bytes else cl.audio_buffer⟩,
       srv, [], false⟩ := by
  obtain ⟨r, buf⟩ := cl
  cases r <;> simp [handleMessage]

/-- C3: a turn whose transcription succeeds appends the conversation
memory exactly once, with the human turn and the assistant turn together
as one pair: the history after the turn is the old history plus that
pair, so its length grows by exactly two entries, never by one. -/
theorem completed_turn_appends_pair
    (o : Oracle) (srv : ServerState) (cl : ClientState)
    (hbuf : cl.audio_buffer ≠ [])
    (hasr : o.asr cl.audio_buffer ≠ "") :
    (handleMessage o srv cl recordingEndedMsg).server.redis =
      srv.redis ++ [⟨Speaker.human, o.asr cl.audio_buffer⟩,
                    ⟨Speaker.assistant, o.llm srv.redis (o.asr cl.audio_buffer)⟩] ∧
    (handleMessage o srv cl recordingEndedMsg).server.redis.length =
      srv.redis.length + 2 := by
  have h1 : (handleMessage o srv cl recordingEndedMsg).server.redis =
      (runPipeline o srv.redis cl.audio_buffer).1 := by
    simp [handleMessage, handleText, handleEvent, recordingEndedMsg, hbuf]
  rw [h1, runPipeline_redis o srv.redis cl.audio_buffer hasr]
  simp

/-- Witness for C3 at a concrete input. -/
theorem completed_turn_appends_pair_witness :
    (handleMessage oAllOk ⟨none, []⟩ ⟨true, [7]⟩ recordingEndedMsg).server.redis =
      ([] : List MemEntry) ++ [⟨Speaker.human, oAllOk.asr [7]⟩,
                    ⟨Speaker.assistant, oAllOk.llm [] (oAllOk.asr [7])⟩] ∧
    (handleMessage oAllOk ⟨none, []⟩ ⟨true, [7]⟩ recordingEndedMsg).server.redis.length =
      ([] : List MemEntry).length + 2 :=
  completed_turn_appends_pair oAllOk ⟨none, []⟩ ⟨true, [7]⟩ (by decide) (by decide)

/-- C4: the conversation-memory append happens inside the dialogue stage,
before synthesis is attempted; when the synthesis stage fails (empty TTS
result), the whole step is exactly: ASR, dialogue with its memory
append, the TTS attempt, and an abort log — the memory holds the new
pair, nothing is streamed to the client, and the session survives. -/
theorem memory_append_precedes_synthesis
    (o : Oracle) (srv : ServerState) (cl : ClientState)
    (hbuf : cl.audio_buffer ≠ [])
    (hasr : o.asr cl.audio_buffer ≠ "")
    (htts : o.tts (o.llm srv.redis (o.asr cl.audio_buffer)) = []) :
    handleMessage o srv cl recordingEndedMsg =
      ⟨⟨false, cl.audio_buffer⟩,
       ⟨srv.led_controller_connection,
        srv.redis ++ [⟨Speaker.human, o.asr cl.audio_buffer⟩,
                      ⟨Speaker.assistant, o.llm srv.redis (o.asr cl.audio_buffer)⟩]⟩,
       [Effect.asrCalled, Effect.llmCalled, Effect.memAppended, Effect.ttsCalled,
        Effect.logged "TTS failed, turn aborted"], false⟩ := by
  simp [handleMessage, handleText, handleEvent, recordingEndedMsg, runPipeline,
    chainInvoke, hbuf, hasr, htts]

/-- Witness for C4 at a concrete input. -/
theorem memory_append_precedes_synthesis_witness :
    handleMessage oTtsFail ⟨none, []⟩ ⟨true, [7]⟩ recordingEndedMsg =
      ⟨⟨false, [7]⟩,
       ⟨none,
        ([] : List MemEntry) ++ [⟨Speaker.human, oTtsFail.asr [7]⟩,
                      ⟨Speaker.assistant, oTtsFail.llm [] (oTtsFail.asr [7])⟩]⟩,
       [Effect.asrCalled, Effect.llmCalled, Effect.memAppended, Effect.ttsCalled,
        Effect.logged "TTS failed, turn aborted"], false⟩ :=
  memory_append_precedes_synthesis oTtsFail ⟨none, []⟩ ⟨true, [7]⟩ (by decide) (by decide) rfl

/-- C5 counterexample: with a transcriber that returns the empty string,
the `recording_ended` step on a non-empty buffer sends nothing at all to
the caller — no text and no bytes — so the claim's "the caller is
notified of an ASR failure" is false at this input: the failure is only
printed on the server. -/
theorem asr_failure_notification_counterexample :
    oAsrFail.asr [7] = "" ∧
    ((handleMessage oAsrFail ⟨none, []⟩ ⟨true, [7]⟩ recordingEndedMsg).effects.all
      fun e => !isClientSend e) = true :=
  ⟨rfl, rfl⟩

/-- C5 amended: if transcription returns empty text, the turn aborts —
the step is exactly the ASR call plus a server-side abort log: no
dialogue-model call, no memory write, nothing sent to the caller (no
notification), and the session and connection survive as a normal
non-fatal outcome. -/
theorem asr_failure_aborts_turn_unnotified
    (o : Oracle) (srv : ServerState) (cl : ClientState)
    (hbuf : cl.audio_buffer ≠ [])
    (hasr : o.asr cl.audio_buffer = "") :
    handleMessage o srv cl recordingEndedMsg =
      ⟨⟨false, cl.audio_buffer⟩, srv,
       [Effect.asrCalled, Effect.logged "ASR failed, turn aborted"], false⟩ := by
  simp [handleMessage, handleText, handleEvent, recordingEndedMsg, runPipeline, hbuf, hasr]

/-- Witness for the amended C5 at a concrete input. -/
theorem asr_failure_aborts_turn_unnotified_witness :
    handleMessage oAsrFail ⟨none, []⟩ ⟨true, [7]⟩ recordingEndedMsg =
      ⟨⟨false, [7]⟩, ⟨none, []⟩,
       [Effect.asrCalled, Effect.logged "ASR failed, turn aborted"], false⟩ :=
  asr_failure_aborts_turn_unnotified oAsrFail ⟨none, []⟩ ⟨true, [7]⟩ (by decide) rfl

/-- C6: when every transport send of a reply succeeds, the stream phase
delivers exactly the chunk list `splitChunks CHUNK_SIZE audio`:
`⌈L/C⌉ = (L + C - 1) / C` chunks whose in-order concatenation is the
original bytes, yields control once after every full burst of
`BURST_SIZE` chunks (`⌊chunks/BURST_SIZE⌋` yields in total), and the
final effect of the phase is the explicit `response_finished`
end-of-stream marker, sent after the last chunk. -/
theorem stream_success_chunking_spec
    (o : Oracle) (audio : List Byte)
    (hok : ∀ i, o.sendOk i = true) (hmk : o.markerOk = true) :
    sentChunks (streamReply o audio) = splitChunks CHUNK_SIZE audio ∧
    (sentChunks (streamReply o audio)).length =
      (audio.length + CHUNK_SIZE - 1) / CHUNK_SIZE ∧
    (sentChunks (streamReply o audio)).flatten = audio ∧
    yieldCount (streamReply o audio) = (splitChunks CHUNK_SIZE audio).length / BURST_SIZE ∧
    (streamReply o audio).getLast? = some (Effect.sentText "response_finished") := by
  have hs := sendLoop_success o hok (splitChunks CHUNK_SIZE audio) 0 0
  have hy := sendLoop_success_yields o hok (splitChunks CHUNK_SIZE audio) 0 0 (by decide)
  have hchunks : sentChunks (streamReply o audio) = splitChunks CHUNK_SIZE audio := by
    have h1 := hs.1
    simp only [sentChunks] at h1 ⊢
    simp [streamReply, hmk, h1]
  refine ⟨hchunks, ?_, ?_, ?_, ?_⟩
  · rw [hchunks, splitChunks_length CHUNK_SIZE (by decide) audio]
  · rw [hchunks, splitChunks_flatten CHUNK_SIZE (by decide) audio]
  · have h2 := hy
    simp only [yieldCount] at h2 ⊢
    simp [streamReply, hmk, List.filter_append, List.filter_cons, isYield, h2]
  · simp only [streamReply, hmk, if_true]
    exact List.getLast?_concat _

/-- Witness for C6, on the spec's scenario: reply audio of 10,000 bytes
with chunk size 1024 gives 10 chunks that reassemble to the audio, and
the marker is the last effect of the phase. -/
theorem stream_success_chunking_spec_witness :
    (sentChunks (streamReply oAllOk (List.replicate 10000 0))).length = 10 ∧
    (sentChunks (streamReply oAllOk (List.replicate 10000 0))).flatten =
      List.replicate 10000 0 ∧
    (streamReply oAllOk (List.replicate 10000 0)).getLast? =
      some (Effect.sentText "response_finished") := by
  have h := stream_success_chunking_spec oAllOk (List.replicate 10000 0)
    (fun i => rfl) rfl
  refine ⟨?_, h.2.2.1, h.2.2.2.2⟩
  rw [h.2.1, List.length_replicate]
  decide

/-- C7: a send failure on the `k`-th chunk of a reply aborts the sending
of all remaining chunks of that reply — exactly the chunks before `k`
are delivered, each once (no retry, no partial-chunk fallback) — and the
failure is handled as a client disconnect for that session (the
disconnect log of the `except` branch that breaks the send loop). -/
theorem stream_send_failure_aborts_remaining
    (o : Oracle) (audio : List Byte) (k : Nat)
    (hok : ∀ i, i < k → o.sendOk i = true)
    (hfail : o.sendOk k = false)
    (hk : k < (splitChunks CHUNK_SIZE audio).length) :
    sentChunks (streamReply o audio) = (splitChunks CHUNK_SIZE audio).take k ∧
    Effect.logged "send failed: client disconnected during audio send"
      ∈ streamReply o audio := by
  have hf := sendLoop_failure o (splitChunks CHUNK_SIZE audio) 0 0 k
    (fun i hi => by simpa using hok i hi) (by simpa using hfail) hk
  constructor
  · have h1 := hf.1
    simp only [sentChunks] at h1 ⊢
    cases hm : o.markerOk <;> simp [streamReply, hm, h1]
  · have h3 := hf.2.2
    simp only [streamReply]
    simp only [List.mem_cons, List.mem_append]
    exact Or.inl (Or.inr h3)

/-- Witness for C7 at a concrete input: 2,050 bytes give 3 chunks; the
send of chunk 1 fails, so only chunk 0 is delivered. -/
theorem stream_send_failure_aborts_remaining_witness :
    sentChunks (streamReply oSendFailAfterFirst (List.replicate 2050 0)) =
      (splitChunks CHUNK_SIZE (List.replicate 2050 0)).take 1 ∧
    Effect.logged "send failed: client disconnected during audio send"
      ∈ streamReply oSendFailAfterFirst (List.replicate 2050 0) :=
  stream_send_failure_aborts_remaining oSendFailAfterFirst (List.replicate 2050 0) 1
    (by
      intro i hi
      have h0 : i = 0 := by omega
      subst h0
      rfl)
    rfl
    (by
      rw [splitChunks_length CHUNK_SIZE (by decide), List.length_replicate]
      decide)

/-- C8 counterexample: each part of the protocol-error claim fails at a
concrete input.  (1) A malformed control payload (one on which
`json.loads` raises) is fatal: the exception escapes the receive loop
and the outer handler closes the connection, so it is not "never fatal,
connection stays open".  (2) An unrecognized event name is ignored with
an empty effect trace — no `logged` effect — so it is not "ignored (and
logged)".  (3) An out-of-order `recording_ended` arriving while Idle
with a stale (never-cleared) non-empty buffer is not ignored at all: it
re-invokes the pipeline (ASR and dialogue run again, nothing is logged
and then dropped) and changes state — the conversation memory grows. -/
theorem protocol_error_claim_counterexample :
    (handleMessage oAllOk ⟨none, []⟩ ⟨false, []⟩
      (.text (.jsonPayload .raisesErr))).fatal = true ∧
    (handleEvent oAllOk ⟨none, []⟩ ⟨false, []⟩ (some "volume_up")).effects = [] ∧
    Effect.asrCalled ∈
      (handleMessage oAllOk ⟨none, []⟩ ⟨false, [7]⟩ recordingEndedMsg).effects ∧
    Effect.llmCalled ∈
      (handleMessage oAllOk ⟨none, []⟩ ⟨false, [7]⟩ recordingEndedMsg).effects ∧
    (handleMessage oAllOk ⟨none, []⟩ ⟨false, [7]⟩ recordingEndedMsg).server.redis ≠
      ([] : List MemEntry) := by
  refine ⟨rfl, rfl, ?_, ?_, ?_⟩ <;> decide

/-- C8 amended: of the original taxonomy only the unrecognized-event case
behaves as claimed, and even there without logging.  (1) A control
payload that parses but carries an unrecognized event name (or no
`event` field) is silently ignored — no session-state change, no
effects, not even a log, never fatal, the connection stays open.
(2) A malformed control payload is fatal: `json.loads` raises out of
the receive loop and the connection is torn down.  (3) A recognized
event arriving out of order is not ignored but processed by its normal
handler: a stray `recording_ended` while Idle with a non-empty stale
buffer re-runs the whole pipeline on that buffer — its step emits
exactly the pipeline's effect trace (starting with the transcriber
call) and replaces the memory with the pipeline's updated history. -/
theorem unrecognized_ignored_malformed_fatal_stray_end_reprocesses :
    (∀ (o : Oracle) (srv : ServerState) (cl : ClientState) (evt : Option String),
        evt ≠ some "wake_word_detected" → evt ≠ some "recording_started" →
        evt ≠ some "recording_ended" → evt ≠ some "recording_cancelled" →
        handleEvent o srv cl evt = ⟨cl, srv, [], false⟩) ∧
    (∀ (o : Oracle) (srv : ServerState) (cl : ClientState),
        handleMessage o srv cl (.text (.jsonPayload .raisesErr)) = ⟨cl, srv, [], true⟩) ∧
    (∀ (o : Oracle) (srv : ServerState) (cl : ClientState),
        cl.is_recording = false → cl.audio_buffer ≠ [] →
        (handleMessage o srv cl recordingEndedMsg).effects =
          (runPipeline o srv.redis cl.audio_buffer).2 ∧
        (handleMessage o srv cl recordingEndedMsg).server.redis =
          (runPipeline o srv.redis cl.audio_buffer).1 ∧
        Effect.asrCalled ∈ (handleMessage o srv cl recordingEndedMsg).effects) := by
  refine ⟨?_, ?_, ?_⟩
  · intro o srv cl evt h1 h2 h3 h4
    simp [handleEvent, h1, h2, h3, h4]
  · intro o srv cl
    rfl
  · intro o srv cl hidle hbuf
    refine ⟨?_, ?_, ?_⟩ <;>
      simp [handleMessage, handleText, handleEvent, recordingEndedMsg, hbuf,
        runPipeline_calls_asr]

/-- Witness for the amended C8 at concrete inputs, exercising all three
parts: an unrecognized event, a malformed payload, and a stray
`recording_ended` in Idle with a stale non-empty buffer. -/
theorem unrecognized_ignored_malformed_fatal_stray_end_reprocesses_witness :
    handleEvent oAllOk ⟨none, []⟩ ⟨false, []⟩ (some "volume_up") =
      ⟨⟨false, []⟩, ⟨none, []⟩, [], false⟩ ∧
    handleMessage oAllOk ⟨none, []⟩ ⟨false, []⟩ (.text (.jsonPayload .raisesErr)) =
      ⟨⟨false, []⟩, ⟨none, []⟩, [], true⟩ ∧
    Effect.asrCalled ∈
      (handleMessage oAllOk ⟨none, []⟩ ⟨false, [7]⟩ recordingEndedMsg).effects :=
  ⟨unrecognized_ignored_malformed_fatal_stray_end_reprocesses.1 oAllOk ⟨none, []⟩
      ⟨false, []⟩ (some "volume_up") (by decide) (by decide) (by decide) (by decide),
   unrecognized_ignored_malformed_fatal_stray_end_reprocesses.2.1 oAllOk ⟨none, []⟩
      ⟨false, []⟩,
   (unrecognized_ignored_malformed_fatal_stray_end_reprocesses.2.2 oAllOk ⟨none, []⟩
      ⟨false, [7]⟩ rfl (by decide)).2.2⟩

/-- C9: a literal `"1"`/`"0"` control value never touches the session
state or buffer and is never fatal; it is forwarded verbatim to the LED
observer when one is registered; a forward-send failure clears the
observer slot (no retry); and with an empty slot the forward is a silent
no-op — no effects at all — so every forward after a failure is a silent
no-op rather than a retry. -/
theorem status_literal_passthrough
    (o : Oracle) (srv : ServerState) (cl : ClientState) (t : TextFrame) (s : String)
    (h : (t = .lit1 ∧ s = "1") ∨ (t = .lit0 ∧ s = "0")) :
    (∀ w, srv.led_controller_connection = some w → o.forwardOk = true →
      handleText o srv cl t =
        ⟨cl, srv, [Effect.forwarded s, Effect.logged "forwarded speaking state"], false⟩) ∧
    (∀ w, srv.led_controller_connection = some w → o.forwardOk = false →
      handleText o srv cl t =
        ⟨cl, ⟨none, srv.redis⟩, [Effect.logged "forward to LED controller failed"], false⟩) ∧
    (srv.led_controller_connection = none →
      handleText o srv cl t = ⟨cl, srv, [], false⟩) := by
  rcases h with ⟨ht, hs⟩ | ⟨ht, hs⟩ <;> subst ht <;> subst hs <;>
    refine ⟨?_, ?_, ?_⟩ <;>
    first
      | (intro w hw hok
         simp [handleText, forwardSignal, hw, hok])
      | (intro hw
         simp [handleText, forwardSignal, hw])

/-- Witness for C9 at concrete inputs: forward delivered verbatim with a
registered observer; slot cleared on forward failure; silent no-op with
an empty slot. -/
theorem status_literal_passthrough_witness :
    handleText oAllOk ⟨some 5, []⟩ ⟨false, []⟩ .lit1 =
      ⟨⟨false, []⟩, ⟨some 5, []⟩,
       [Effect.forwarded "1", Effect.logged "forwarded speaking state"], false⟩ ∧
    handleText oFwdFail ⟨some 5, []⟩ ⟨false, []⟩ .lit0 =
      ⟨⟨false, []⟩, ⟨none, []⟩,
       [Effect.logged "forward to LED controller failed"], false⟩ ∧
    handleText oAllOk ⟨none, []⟩ ⟨false, []⟩ .lit0 =
      ⟨⟨false, []⟩, ⟨none, []⟩, [], false⟩ :=
  ⟨(status_literal_passthrough oAllOk ⟨some 5, []⟩ ⟨false, []⟩ .lit1 "1"
      (Or.inl ⟨rfl, rfl⟩)).1 5 rfl rfl,
   (status_literal_passthrough oFwdFail ⟨some 5, []⟩ ⟨false, []⟩ .lit0 "0"
      (Or.inr ⟨rfl, rfl⟩)).2.1 5 rfl rfl,
   (status_literal_passthrough oAllOk ⟨none, []⟩ ⟨false, []⟩ .lit0 "0"
      (Or.inr ⟨rfl, rfl⟩)).2.2 rfl⟩

/-- C10: the observer handler's teardown sets the slot to empty
unconditionally — after a newer observer `wNew` has replaced `w` in the
slot, the termination of stale observer `w`'s handler still empties the
slot that holds the live replacement. -/
theorem observer_teardown_clears_slot_unconditionally
    (srv : ServerState) (w wNew : Nat) (h : w ≠ wNew) :
    (observerRegister srv wNew).led_controller_connection = some wNew ∧
    (observerHandlerFinally (observerRegister srv wNew) w).led_controller_connection =
      none :=
  ⟨rfl, rfl⟩

/-- Witness for C10 at a concrete input. -/
theorem observer_teardown_clears_slot_unconditionally_witness :
    (observerRegister ⟨some 3, []⟩ 1).led_controller_connection = some 1 ∧
    (observerHandlerFinally (observerRegister ⟨some 3, []⟩ 1) 0).led_controller_connection =
      none :=
  observer_teardown_clears_slot_unconditionally ⟨some 3, []⟩ 0 1 (by decide)

end ESP32Voice
